import Mathlib

/-!
Shallow embedding of the LED kernel-module state machine
(`src/unnamed/part_000`): a bank of `NUM_LEDS` outputs driven by a
repeating timer (`led_timer_callback`) and an interrupt handler
(`switch_handler`) with a per-switch debounce table.

Modelling conventions:
* GPIO output lines and the `led_states` mirror are `Fin NUM_LEDS → Bool`
  (the `led_pins` mapping is injective, so lines are keyed by logical index).
* Time is in milliseconds; `DEBOUNCE_DELAY` is `HZ / 5` jiffies = 200 ms.
  Jiffy timestamps are monotone `Nat`s, so C's unsigned subtraction in the
  debounce test coincides with `Nat` subtraction.
* The kernel timer is modelled by a single `timer_pending : Bool` cell:
  `del_timer` clears it, `mod_timer` sets it, and a fired callback is no
  longer pending unless it re-arms itself via `mod_timer`.
* C's `%` on `int` is truncated division remainder, i.e. `Int.tmod`.
-/

namespace LedModule

abbrev NUM_LEDS : Nat := 4
abbrev NUM_SWITCHES : Nat := 4

/-- `DEBOUNCE_DELAY` is `HZ / 5` jiffies, i.e. 200 ms, expressed in ms. -/
abbrev DEBOUNCE_DELAY : Nat := 200

/-- Physical pins of the four LEDs (`led_pins`); injective, so the output
bank is modelled keyed by logical index. -/
def led_pins : List Nat := [23, 24, 25, 1]

/-- Physical pins of the four switches (`switch_pins`). -/
def switch_pins : List Nat := [4, 17, 27, 22]

/-- The global mutable state of `part_000`: the GPIO output lines, the
`led_states` mirror, the debounce table `last_switch_time`, the mode
variables, and the single kernel timer (`timer_pending`). -/
structure State where
  gpio_lines : Fin NUM_LEDS → Bool
  led_states : Fin NUM_LEDS → Bool
  last_switch_time : Fin NUM_SWITCHES → Nat
  current_mode : Int
  direction : Int
  current_led : Int
  timer_pending : Bool
deriving DecidableEq

/-- One iteration of writing LED array entry `i` (a `Nat` loop index):
out-of-range indices leave the array unchanged (never happens in the
source loops, whose bounds are static). -/
def writeLed (f : Fin NUM_LEDS → Bool) (i : Nat) (v : Bool) : Fin NUM_LEDS → Bool :=
  if h : i < NUM_LEDS then Function.update f ⟨i, h⟩ v else f

/-- `reset_leds` (part_000 lines 25-32): drive every line low, clear the
`led_states` mirror, and set `current_mode = -1`. -/
def reset_leds (s : State) : State :=
  let s' := (List.range NUM_LEDS).foldl
    (fun t i =>
      { t with gpio_lines := writeLed t.gpio_lines i false,
               led_states := writeLed t.led_states i false }) s
  { s' with current_mode := -1 }

/-- `set_led` (part_000 lines 34-39): bounds-checked write of one line and
its mirror entry. -/
def set_led (s : State) (led_idx : Int) (value : Bool) : State :=
  if 0 ≤ led_idx ∧ led_idx < (NUM_LEDS : Int) then
    { s with gpio_lines := writeLed s.gpio_lines led_idx.toNat value,
             led_states := writeLed s.led_states led_idx.toNat value }
  else s

/-- The `for`-loop of the all-blink on-phase (part_000 lines 49-52):
`set_led(i, 1)` for every `i`. -/
def all_leds_on (s : State) : State :=
  (List.range NUM_LEDS).foldl (fun t i => set_led t (i : Int) true) s

/-- `led_timer_callback` (part_000 lines 41-79).  A fired timer is no
longer pending; it becomes pending again only through the final
`mod_timer`, which runs only when `current_mode != -1` after the tick
body. -/
def led_timer_callback (s : State) : State :=
  let s0 := { s with timer_pending := false }
  if s0.current_mode = -1 then s0
  else
    let s1 :=
      if s0.current_mode = 0 then
        -- case 0: all-blink, alternation flag read from led_states[0]
        if s0.led_states 0 = false then
          all_leds_on s0
        else
          reset_leds s0
      else if s0.current_mode = 1 then
        -- case 1: sweep step
        let t1 := reset_leds s0
        let t2 := set_led t1 t1.current_led true
        if t1.direction = 0 then
          { t2 with current_led := Int.tmod (t2.current_led + 1) (NUM_LEDS : Int) }
        else
          { t2 with current_led := Int.tmod (t2.current_led - 1 + (NUM_LEDS : Int)) (NUM_LEDS : Int) }
      else s0
    if s1.current_mode ≠ -1 then { s1 with timer_pending := true } else s1

/-- `switch_handler` (part_000 lines 81-123).  Returns the new state and
whether the edge passed the debounce filter and was dispatched.  The
`del_timer` / `timer_setup` / `mod_timer` triple of cases 0/1 nets to
arming the single timer; case 3 runs `reset_leds` then `del_timer`;
case 2 touches no timer. -/
def switch_handler (s : State) (switch_id : Fin NUM_SWITCHES) (current_time : Nat) :
    State × Bool :=
  if current_time - s.last_switch_time switch_id < DEBOUNCE_DELAY then
    (s, false)
  else
    let s0 := { s with
      last_switch_time := Function.update s.last_switch_time switch_id current_time }
    let s1 :=
      if switch_id.val = 0 ∨ switch_id.val = 1 then
        { s0 with current_mode := (switch_id.val : Int),
                  current_led := if switch_id.val = 1 then 0 else -1,
                  timer_pending := true }
      else if switch_id.val = 2 then
        let s2 := { s0 with current_mode := 2 }
        if s2.led_states switch_id then set_led s2 (switch_id.val : Int) false
        else set_led s2 (switch_id.val : Int) true
      else if switch_id.val = 3 then
        { reset_leds s0 with timer_pending := false }
      else s0
    (s1, true)

/-- State right after `led_module_init`: all lines driven low, debounce
table zeroed, `current_mode = -1`, `direction = 0`, timer set up but not
armed. -/
def init_state : State where
  gpio_lines := fun _ => false
  led_states := fun _ => false
  last_switch_time := fun _ => 0
  current_mode := -1
  direction := 0
  current_led := 0
  timer_pending := false

/-- External stimuli: a debounced-or-not switch edge at a given jiffy
timestamp, or an opportunity for the timer to fire. -/
inductive Event where
  | press (switch_id : Fin NUM_SWITCHES) (now : Nat)
  | tick
deriving DecidableEq

/-- One system step: an edge runs `switch_handler`; a tick runs
`led_timer_callback`, but only if the timer is actually armed. -/
def step (s : State) (e : Event) : State :=
  match e with
  | Event.press i now => (switch_handler s i now).1
  | Event.tick => if s.timer_pending then led_timer_callback s else s

/-- Execute a whole event trace from the freshly initialized module. -/
def run (events : List Event) : State :=
  events.foldl step init_state

/-- A state is reachable when some event trace from `init_state` ends
there. -/
def Reachable (s : State) : Prop := ∃ events, run events = s

/-- Deliver a list of edges on one input, counting how many pass the
debounce filter and reach the dispatch logic. -/
def dispatchCount (s : State) (i : Fin NUM_SWITCHES) : List Nat → Nat
  | [] => 0
  | t :: ts =>
      (if (switch_handler s i t).2 then 1 else 0) +
        dispatchCount (switch_handler s i t).1 i ts

/-- The post-reset configuration: every line and mirror entry low,
`current_mode = -1`, timer disarmed. -/
abbrev ResetStateHolds (s : State) : Prop :=
  (∀ i, s.gpio_lines i = false ∧ s.led_states i = false) ∧
  s.current_mode = -1 ∧ s.timer_pending = false

/-- Invariant maintained by every step: an animator-driven mode has the
timer armed, idle mode has it disarmed, and `direction` is never
written. -/
abbrev ProtInv (s : State) : Prop :=
  ((s.current_mode = 0 ∨ s.current_mode = 1) → s.timer_pending = true) ∧
  (s.current_mode = -1 → s.timer_pending = false) ∧
  s.direction = 0

/-- Trace for the all-blink scenario: accepted switch-0 edge, then two
timer firings. -/
def blinkTrace : List Event := [Event.press 0 200, Event.tick, Event.tick]

/-- Trace for the sweep scenario: accepted switch-1 edge, then four timer
firing opportunities (N = 4). -/
def sweepTrace : List Event :=
  [Event.press 1 200, Event.tick, Event.tick, Event.tick, Event.tick]

/-- Trace reaching Manual mode while an animator timer is pending:
switch 0 arms the timer, then switch 2 enters Manual without `del_timer`. -/
def manualTrace : List Event := [Event.press 0 200, Event.press 2 400]

/-! ### Helper lemmas about the basic output-bank operations -/

theorem reset_leds_current_mode (s : State) : (reset_leds s).current_mode = -1 := rfl

theorem reset_leds_timer_pending (s : State) :
    (reset_leds s).timer_pending = s.timer_pending := rfl

theorem reset_leds_direction (s : State) : (reset_leds s).direction = s.direction := rfl

theorem reset_leds_current_led (s : State) : (reset_leds s).current_led = s.current_led := rfl

theorem reset_leds_last_switch_time (s : State) :
    (reset_leds s).last_switch_time = s.last_switch_time := rfl

theorem reset_leds_led_states (s : State) (i : Fin NUM_LEDS) :
    (reset_leds s).led_states i = false := by
  fin_cases i <;> rfl

theorem reset_leds_gpio_lines (s : State) (i : Fin NUM_LEDS) :
    (reset_leds s).gpio_lines i = false := by
  fin_cases i <;> rfl

theorem set_led_current_mode (s : State) (idx : Int) (v : Bool) :
    (set_led s idx v).current_mode = s.current_mode := by
  unfold set_led; split <;> rfl

theorem set_led_timer_pending (s : State) (idx : Int) (v : Bool) :
    (set_led s idx v).timer_pending = s.timer_pending := by
  unfold set_led; split <;> rfl

theorem set_led_direction (s : State) (idx : Int) (v : Bool) :
    (set_led s idx v).direction = s.direction := by
  unfold set_led; split <;> rfl

theorem set_led_current_led (s : State) (idx : Int) (v : Bool) :
    (set_led s idx v).current_led = s.current_led := by
  unfold set_led; split <;> rfl

theorem set_led_last_switch_time (s : State) (idx : Int) (v : Bool) :
    (set_led s idx v).last_switch_time = s.last_switch_time := by
  unfold set_led; split <;> rfl

theorem set_led_led_states_self (s : State) (idx : Int) (v : Bool) (i : Fin NUM_LEDS)
    (h : (i.val : Int) = idx) : (set_led s idx v).led_states i = v := by
  subst h
  fin_cases i <;> rfl

theorem set_led_gpio_lines_self (s : State) (idx : Int) (v : Bool) (i : Fin NUM_LEDS)
    (h : (i.val : Int) = idx) : (set_led s idx v).gpio_lines i = v := by
  subst h
  fin_cases i <;> rfl

theorem set_led_led_states_ne (s : State) (idx : Int) (v : Bool) (i : Fin NUM_LEDS)
    (h : (i.val : Int) ≠ idx) : (set_led s idx v).led_states i = s.led_states i := by
  unfold set_led writeLed
  split
  · split
    · simp only []
      rw [Function.update_noteq]
      intro hh
      apply h
      rw [hh]
      simp
      omega
    · rfl
  · rfl

theorem set_led_gpio_lines_ne (s : State) (idx : Int) (v : Bool) (i : Fin NUM_LEDS)
    (h : (i.val : Int) ≠ idx) : (set_led s idx v).gpio_lines i = s.gpio_lines i := by
  unfold set_led writeLed
  split
  · split
    · simp only []
      rw [Function.update_noteq]
      intro hh
      apply h
      rw [hh]
      simp
      omega
    · rfl
  · rfl

theorem all_leds_on_current_mode (s : State) :
    (all_leds_on s).current_mode = s.current_mode := rfl

theorem all_leds_on_timer_pending (s : State) :
    (all_leds_on s).timer_pending = s.timer_pending := rfl

theorem all_leds_on_direction (s : State) : (all_leds_on s).direction = s.direction := rfl

theorem all_leds_on_last_switch_time (s : State) :
    (all_leds_on s).last_switch_time = s.last_switch_time := rfl

theorem all_leds_on_led_states (s : State) (i : Fin NUM_LEDS) :
    (all_leds_on s).led_states i = true := by
  fin_cases i <;> rfl

theorem all_leds_on_gpio_lines (s : State) (i : Fin NUM_LEDS) :
    (all_leds_on s).gpio_lines i = true := by
  fin_cases i <;> rfl

/-! ### Shape lemmas for the trigger handler, one per `switch` arm -/

theorem switch_handler_suppressed (s : State) (i : Fin NUM_SWITCHES) (now : Nat)
    (hd : now - s.last_switch_time i < DEBOUNCE_DELAY) :
    switch_handler s i now = (s, false) := by
  unfold switch_handler
  rw [if_pos hd]

theorem switch_handler_case01 (s : State) (i : Fin NUM_SWITCHES) (now : Nat)
    (hd : ¬ now - s.last_switch_time i < DEBOUNCE_DELAY)
    (hv : i.val = 0 ∨ i.val = 1) :
    switch_handler s i now =
      ({ s with
          last_switch_time := Function.update s.last_switch_time i now,
          current_mode := (i.val : Int),
          current_led := if i.val = 1 then 0 else -1,
          timer_pending := true }, true) := by
  unfold switch_handler
  rw [if_neg hd]
  simp only [if_pos hv]

theorem switch_handler_case2 (s : State) (i : Fin NUM_SWITCHES) (now : Nat)
    (hd : ¬ now - s.last_switch_time i < DEBOUNCE_DELAY)
    (hv : i.val = 2) :
    switch_handler s i now =
      ((if s.led_states i then
          set_led { s with
              last_switch_time := Function.update s.last_switch_time i now,
              current_mode := 2 } (i.val : Int) false
        else
          set_led { s with
              last_switch_time := Function.update s.last_switch_time i now,
              current_mode := 2 } (i.val : Int) true), true) := by
  unfold switch_handler
  rw [if_neg hd]
  simp only [if_neg (by omega : ¬ (i.val = 0 ∨ i.val = 1)), if_pos hv]

theorem switch_handler_case3 (s : State) (i : Fin NUM_SWITCHES) (now : Nat)
    (hd : ¬ now - s.last_switch_time i < DEBOUNCE_DELAY)
    (hv : i.val = 3) :
    switch_handler s i now =
      ({ reset_leds { s with
            last_switch_time := Function.update s.last_switch_time i now } with
          timer_pending := false }, true) := by
  unfold switch_handler
  rw [if_neg hd]
  simp only [if_neg (by omega : ¬ (i.val = 0 ∨ i.val = 1)),
    if_neg (by omega : ¬ i.val = 2), if_pos hv]

/-! ### Shape lemmas for the timer callback, one per mode -/

theorem led_timer_callback_idle (s : State) (h : s.current_mode = -1) :
    led_timer_callback s = { s with timer_pending := false } := by
  unfold led_timer_callback
  simp [h]

theorem led_timer_callback_mode0_on (s : State) (h0 : s.current_mode = 0)
    (hl : s.led_states 0 = false) :
    led_timer_callback s =
      { all_leds_on { s with timer_pending := false } with timer_pending := true } := by
  unfold led_timer_callback
  simp [h0, hl, all_leds_on_current_mode]

theorem led_timer_callback_mode0_off (s : State) (h0 : s.current_mode = 0)
    (hl : s.led_states 0 = true) :
    led_timer_callback s = reset_leds { s with timer_pending := false } := by
  unfold led_timer_callback
  simp [h0, hl, reset_leds_current_mode]

theorem led_timer_callback_mode1_spec (s : State) (h1 : s.current_mode = 1) :
    (led_timer_callback s).current_mode = -1 ∧
    (led_timer_callback s).timer_pending = false ∧
    (led_timer_callback s).direction = s.direction := by
  unfold led_timer_callback
  by_cases hdir : s.direction = 0 <;>
    simp [h1, hdir, reset_leds_current_mode, reset_leds_timer_pending, reset_leds_direction,
      set_led_current_mode, set_led_timer_pending, set_led_direction]

theorem led_timer_callback_default (s : State) (hne1 : ¬ s.current_mode = -1)
    (hne2 : ¬ s.current_mode = 0) (hne3 : ¬ s.current_mode = 1) :
    led_timer_callback s = { s with timer_pending := true } := by
  unfold led_timer_callback
  simp [hne1, hne2, hne3]

/-! ### The mode/timer invariant is preserved by every step -/

theorem led_timer_callback_ProtInv (s : State) (hdir : s.direction = 0) :
    ProtInv (led_timer_callback s) := by
  by_cases h1 : s.current_mode = -1
  · rw [led_timer_callback_idle s h1]
    refine ⟨?_, ?_, ?_⟩ <;> simp [h1, hdir]
  by_cases h2 : s.current_mode = 0
  · by_cases hl : s.led_states 0 = true
    · rw [led_timer_callback_mode0_off s h2 hl]
      refine ⟨?_, ?_, ?_⟩ <;>
        simp [reset_leds_current_mode, reset_leds_timer_pending, reset_leds_direction, hdir]
    · rw [led_timer_callback_mode0_on s h2 (by revert hl; cases s.led_states 0 <;> simp)]
      refine ⟨?_, ?_, ?_⟩ <;>
        simp [all_leds_on_current_mode, all_leds_on_direction, h2, hdir]
  by_cases h3 : s.current_mode = 1
  · obtain ⟨hm, hp, hd⟩ := led_timer_callback_mode1_spec s h3
    refine ⟨?_, ?_, ?_⟩ <;> simp [hm, hp, hd, hdir]
  · rw [led_timer_callback_default s h1 h2 h3]
    refine ⟨?_, ?_, ?_⟩ <;> simp [h1, hdir]

theorem switch_handler_ProtInv (s : State) (i : Fin NUM_SWITCHES) (now : Nat)
    (h : ProtInv s) : ProtInv (switch_handler s i now).1 := by
  by_cases hd : now - s.last_switch_time i < DEBOUNCE_DELAY
  · rw [switch_handler_suppressed s i now hd]
    exact h
  obtain ⟨hA, hB, hC⟩ := h
  by_cases h01 : i.val = 0 ∨ i.val = 1
  · rw [switch_handler_case01 s i now hd h01]
    refine ⟨?_, ?_, ?_⟩ <;> simp
    omega
  by_cases h2 : i.val = 2
  · rw [switch_handler_case2 s i now hd h2]
    simp only
    split <;>
      (refine ⟨?_, ?_, ?_⟩ <;>
        simp [set_led_current_mode, set_led_timer_pending, set_led_direction, hC])
  by_cases h3 : i.val = 3
  · rw [switch_handler_case3 s i now hd h3]
    refine ⟨?_, ?_, ?_⟩ <;>
      simp [reset_leds_current_mode, reset_leds_timer_pending, reset_leds_direction, hC]
  · exact absurd i.isLt (by show ¬ i.val < 4; omega)

theorem step_ProtInv (s : State) (e : Event) (h : ProtInv s) : ProtInv (step s e) := by
  match e with
  | Event.press i now => exact switch_handler_ProtInv s i now h
  | Event.tick =>
    by_cases hp : s.timer_pending
    · simpa [step, hp] using led_timer_callback_ProtInv s h.2.2
    · simpa [step, hp] using h

theorem foldl_ProtInv (events : List Event) :
    ∀ s : State, ProtInv s → ProtInv (events.foldl step s) := by
  induction events with
  | nil => exact fun s h => h
  | cons e t ih => exact fun s h => ih (step s e) (step_ProtInv s e h)

theorem reachable_ProtInv (s : State) (h : Reachable s) : ProtInv s := by
  obtain ⟨tr, rfl⟩ := h
  exact foldl_ProtInv tr init_state (by decide)

/-! ### Claim C1 -/

/-- Claim C1 counterexample: the claimed invariant "no animator is running
(and no tick reschedules itself) when Mode is Manual(2)" fails at a
reachable state.  After an accepted switch-0 trigger arms the timer, an
accepted switch-2 trigger enters Manual mode without `del_timer`, so the
timer is still pending, and a tick in Manual mode re-arms it. -/
theorem manual_mode_breaks_animator_invariant :
    Reachable (run manualTrace) ∧
    (run manualTrace).current_mode = 2 ∧
    (run manualTrace).timer_pending = true ∧
    (step (run manualTrace) Event.tick).timer_pending = true :=
  ⟨⟨manualTrace, rfl⟩, by decide, by decide, by decide⟩

/-- Claim C1 (amended): at every reachable state there is at most one
animator (the model's single timer cell); if Mode is AllBlink(0) or
Sweep(1) the timer is pending, and if Mode is Idle(-1) it is not; but if
Mode is Manual(2) an animator armed by an earlier trigger may remain
pending, and its tick re-arms the timer while mutating no outputs. -/
theorem mode_timer_invariant (s : State) (h : Reachable s) :
    ((s.current_mode = 0 ∨ s.current_mode = 1) → s.timer_pending = true) ∧
    (s.current_mode = -1 → s.timer_pending = false) ∧
    (s.current_mode = 2 →
      (led_timer_callback s).timer_pending = true ∧
      (∀ i, (led_timer_callback s).led_states i = s.led_states i) ∧
      (∀ i, (led_timer_callback s).gpio_lines i = s.gpio_lines i)) := by
  obtain ⟨hA, hB, _⟩ := reachable_ProtInv s h
  refine ⟨hA, hB, fun hm => ?_⟩
  rw [led_timer_callback_default s (by omega) (by omega) (by omega)]
  exact ⟨rfl, fun i => rfl, fun i => rfl⟩

/-- Witness for `mode_timer_invariant` at the reachable state reached by
one accepted switch-0 trigger. -/
theorem mode_timer_invariant_witness :
    Reachable (run [Event.press 0 200]) ∧
    ((((run [Event.press 0 200]).current_mode = 0 ∨
        (run [Event.press 0 200]).current_mode = 1) →
      (run [Event.press 0 200]).timer_pending = true) ∧
    ((run [Event.press 0 200]).current_mode = -1 →
      (run [Event.press 0 200]).timer_pending = false) ∧
    ((run [Event.press 0 200]).current_mode = 2 →
      (led_timer_callback (run [Event.press 0 200])).timer_pending = true ∧
      (∀ i, (led_timer_callback (run [Event.press 0 200])).led_states i =
        (run [Event.press 0 200]).led_states i) ∧
      (∀ i, (led_timer_callback (run [Event.press 0 200])).gpio_lines i =
        (run [Event.press 0 200]).gpio_lines i))) :=
  ⟨⟨[Event.press 0 200], rfl⟩,
    mode_timer_invariant (run [Event.press 0 200]) ⟨[Event.press 0 200], rfl⟩⟩

/-! ### Claim C2 -/

/-- Claim C2: evaluation at the failing input.  After an accepted switch-0
trigger, the first tick turns all outputs on and re-arms the timer, but
the second (off-phase) tick calls `reset_leds`, which sets
`current_mode = -1`, so the callback does not re-arm: the blink stops
after a single on/off cycle, and a further tick opportunity changes
nothing — there is no unending 2000ms square wave and no third tick. -/
theorem allblink_stops_after_one_cycle :
    (∀ i, (run [Event.press 0 200, Event.tick]).led_states i = true) ∧
    (run [Event.press 0 200, Event.tick]).timer_pending = true ∧
    (∀ i, (run blinkTrace).led_states i = false) ∧
    (run blinkTrace).current_mode = -1 ∧
    (run blinkTrace).timer_pending = false ∧
    step (run blinkTrace) Event.tick = run blinkTrace := by decide

/-! ### Claim C3 -/

/-- Claim C3: evaluation at the failing input.  After an accepted switch-1
trigger and N = 4 timer-tick opportunities, only the first tick performed
a sweep step: it lit output 0 and advanced `current_led` to 1, but
`reset_leds` inside the tick set `current_mode = -1`, so the timer was
never re-armed.  Outputs 1..3 are never lit, and after the 4 tick
opportunities `current_led` is 1, not the start value 0: the whole run
equals the run with a single tick. -/
theorem sweep_stops_after_first_step :
    (run sweepTrace).current_led = 1 ∧
    (run sweepTrace).current_mode = -1 ∧
    (run sweepTrace).timer_pending = false ∧
    (run sweepTrace).led_states 0 = true ∧
    (run sweepTrace).led_states 1 = false ∧
    (run sweepTrace).led_states 2 = false ∧
    (run sweepTrace).led_states 3 = false ∧
    run sweepTrace = run [Event.press 1 200, Event.tick] := by decide

/-! ### Claim C4 -/

/-- Claim C4 counterexample: two consecutive accepted switch-1 triggers do
NOT yield opposite `direction` values or opposite start positions — the
handler never writes `direction`, and `current_led` is reset to 0 both
times (the claim demands direction toggling and start positions 0 then
N-1 = 3). -/
theorem sweep_direction_not_toggled :
    (run [Event.press 1 200]).direction = 0 ∧
    (run [Event.press 1 200, Event.press 1 400]).direction = 0 ∧
    (run [Event.press 1 200]).current_led = 0 ∧
    (run [Event.press 1 200, Event.press 1 400]).current_led = 0 := by decide

/-- Claim C4 (amended): each accepted switch-1 trigger sets Mode=Sweep,
resets `current_led` to the fixed start index 0, re-arms the timer, and
leaves `direction` unchanged; hence two consecutive switch-1 triggers
yield the same direction and the same start position 0. -/
theorem switch1_resets_position_keeps_direction (s : State) (now : Nat)
    (hacc : DEBOUNCE_DELAY ≤ now - s.last_switch_time 1) :
    (switch_handler s 1 now).1.current_mode = 1 ∧
    (switch_handler s 1 now).1.current_led = 0 ∧
    (switch_handler s 1 now).1.direction = s.direction ∧
    (switch_handler s 1 now).1.timer_pending = true := by
  rw [switch_handler_case01 s 1 now (by omega) (Or.inr rfl)]
  exact ⟨rfl, rfl, rfl, rfl⟩

/-- Witness for `switch1_resets_position_keeps_direction` at the initial
state with an accepted edge at t = 300 ms. -/
theorem switch1_resets_position_keeps_direction_witness :
    DEBOUNCE_DELAY ≤ 300 - init_state.last_switch_time 1 ∧
    ((switch_handler init_state 1 300).1.current_mode = 1 ∧
     (switch_handler init_state 1 300).1.current_led = 0 ∧
     (switch_handler init_state 1 300).1.direction = init_state.direction ∧
     (switch_handler init_state 1 300).1.timer_pending = true) :=
  ⟨by decide, switch1_resets_position_keeps_direction init_state 300 (by decide)⟩

/-! ### Claim C5 -/

/-- Claim C5: an accepted switch-3 (Reset) trigger from any reachable
state stops the animator (`del_timer`), turns every output off, sets
Mode=Idle(-1) and leaves `direction` = Forward(0); and any further
switch-3 delivery (accepted or debounce-suppressed) preserves the
all-off/Idle/stopped configuration, so repeated delivery is idempotent. -/
theorem reset_trigger_resets_and_idempotent :
    (∀ (s : State) (now : Nat), Reachable s →
        DEBOUNCE_DELAY ≤ now - s.last_switch_time 3 →
        ResetStateHolds (switch_handler s 3 now).1 ∧
        (switch_handler s 3 now).1.direction = 0) ∧
    (∀ (s : State) (now : Nat), ResetStateHolds s →
        ResetStateHolds (switch_handler s 3 now).1) := by
  constructor
  · intro s now hr hacc
    rw [switch_handler_case3 s 3 now (by omega) rfl]
    refine ⟨⟨fun i => ⟨reset_leds_gpio_lines _ i, reset_leds_led_states _ i⟩, rfl, rfl⟩, ?_⟩
    exact (reachable_ProtInv s hr).2.2
  · intro s now h
    by_cases hd : now - s.last_switch_time 3 < DEBOUNCE_DELAY
    · rw [switch_handler_suppressed s 3 now hd]
      exact h
    · rw [switch_handler_case3 s 3 now hd rfl]
      exact ⟨fun i => ⟨reset_leds_gpio_lines _ i, reset_leds_led_states _ i⟩, rfl, rfl⟩

/-- Witness for `reset_trigger_resets_and_idempotent`: first conjunct at
the initial state with an accepted edge at t = 500 ms; second conjunct at
the already-reset state reached by one accepted switch-3 trigger. -/
theorem reset_trigger_resets_and_idempotent_witness :
    (Reachable init_state ∧
      DEBOUNCE_DELAY ≤ 500 - init_state.last_switch_time 3 ∧
      ResetStateHolds (switch_handler init_state 3 500).1 ∧
      (switch_handler init_state 3 500).1.direction = 0) ∧
    (ResetStateHolds (run [Event.press 3 300]) ∧
      ResetStateHolds (switch_handler (run [Event.press 3 300]) 3 600).1) :=
  ⟨⟨⟨[], rfl⟩, by decide,
    (reset_trigger_resets_and_idempotent.1 init_state 500 ⟨[], rfl⟩ (by decide)).1,
    (reset_trigger_resets_and_idempotent.1 init_state 500 ⟨[], rfl⟩ (by decide)).2⟩,
   ⟨by decide,
    reset_trigger_resets_and_idempotent.2 (run [Event.press 3 300]) 600 (by decide)⟩⟩

/-! ### Claim C6 -/

/-- An edge that passes the debounce filter records its timestamp in every
handler arm and reports a dispatch. -/
theorem switch_handler_accepted_last (s : State) (i : Fin NUM_SWITCHES) (now : Nat)
    (hd : ¬ now - s.last_switch_time i < DEBOUNCE_DELAY) :
    (switch_handler s i now).1.last_switch_time i = now ∧
    (switch_handler s i now).2 = true := by
  by_cases h01 : i.val = 0 ∨ i.val = 1
  · rw [switch_handler_case01 s i now hd h01]
    exact ⟨by simp, rfl⟩
  by_cases h2 : i.val = 2
  · rw [switch_handler_case2 s i now hd h2]
    constructor
    · simp only
      split <;> rw [set_led_last_switch_time] <;> simp
    · rfl
  by_cases h3 : i.val = 3
  · rw [switch_handler_case3 s i now hd h3]
    exact ⟨by simp [reset_leds_last_switch_time], rfl⟩
  · exact absurd i.isLt (by show ¬ i.val < 4; omega)

/-- Claim C6: for every input index, an edge is suppressed exactly when it
arrives less than `DEBOUNCE_DELAY` = 200 ms after the recorded
last-accepted edge on that input; consequently, of two further edges on
that input the first of which is accepted, the second is dispatched
exactly when it is at least 200 ms after the first — two edges within
200 ms give one dispatch, two edges at least 200 ms apart give two. -/
theorem debounce_window (s : State) (i : Fin NUM_SWITCHES) (t1 t2 : Nat)
    (_h01 : s.last_switch_time i ≤ t1) (_h12 : t1 ≤ t2) :
    ((switch_handler s i t1).2 = false ↔ t1 - s.last_switch_time i < DEBOUNCE_DELAY) ∧
    (DEBOUNCE_DELAY ≤ t1 - s.last_switch_time i →
      dispatchCount s i [t1, t2] = if t2 - t1 < DEBOUNCE_DELAY then 1 else 2) := by
  constructor
  · by_cases hd : t1 - s.last_switch_time i < DEBOUNCE_DELAY
    · rw [switch_handler_suppressed s i t1 hd]
      simpa using hd
    · rw [(switch_handler_accepted_last s i t1 hd).2]
      exact iff_of_false (by simp) hd
  · intro hacc
    have hd1 : ¬ t1 - s.last_switch_time i < DEBOUNCE_DELAY := by omega
    obtain ⟨hl, hb⟩ := switch_handler_accepted_last s i t1 hd1
    simp only [dispatchCount, hb, if_true]
    by_cases h2 : t2 - t1 < DEBOUNCE_DELAY
    · rw [if_pos h2]
      rw [switch_handler_suppressed _ i t2 (by rw [hl]; exact h2)]
      simp
    · rw [if_neg h2]
      rw [(switch_handler_accepted_last (switch_handler s i t1).1 i t2 (by rw [hl]; omega)).2]
      simp

/-- Witness for `debounce_window`: from the initial state, edges at 300 ms
and 400 ms (within the window) give one dispatch; edges at 300 ms and
600 ms give two. -/
theorem debounce_window_witness :
    (init_state.last_switch_time 0 ≤ 300 ∧ (300 : Nat) ≤ 400 ∧
      dispatchCount init_state 0 [300, 400] = 1) ∧
    ((300 : Nat) ≤ 600 ∧ dispatchCount init_state 0 [300, 600] = 2) := by
  have h1 := (debounce_window init_state 0 300 400 (by decide) (by decide)).2 (by decide)
  have h2 := (debounce_window init_state 0 300 600 (by decide) (by decide)).2 (by decide)
  rw [h1, h2]
  exact ⟨⟨by decide, by decide, by decide⟩, ⟨by decide, by decide⟩⟩

/-! ### Claim C7 -/

/-- Claim C7 counterexample: a switch-2 (Manual) trigger does NOT stop a
running animator.  After an accepted switch-0 trigger the timer is
pending, and after the subsequent accepted switch-2 trigger it is still
pending (case 2 of the handler contains no `del_timer`). -/
theorem manual_trigger_does_not_stop_timer :
    (run [Event.press 0 200]).timer_pending = true ∧
    (run manualTrace).current_mode = 2 ∧
    (run manualTrace).timer_pending = true := by decide

/-- Specialization of `switch_handler_case2` to the literal switch id 2. -/
theorem switch_handler_press2 (s : State) (now : Nat)
    (hd : ¬ now - s.last_switch_time 2 < DEBOUNCE_DELAY) :
    switch_handler s 2 now =
      ((if s.led_states 2 then
          set_led { s with
              last_switch_time := Function.update s.last_switch_time 2 now,
              current_mode := 2 } 2 false
        else
          set_led { s with
              last_switch_time := Function.update s.last_switch_time 2 now,
              current_mode := 2 } 2 true), true) := by
  rw [switch_handler_case2 s 2 now hd rfl]
  exact rfl

/-- Claim C7 (amended): an accepted switch-2 trigger sets Mode=Manual(2)
and toggles output index 2 relative to its `led_states` mirror (off if
the mirror says on, on if it says off) without reading hardware, leaves
every other output untouched, and neither starts nor stops an animator:
the timer-pending flag is exactly what it was before. -/
theorem switch2_sets_manual_and_toggles (s : State) (now : Nat)
    (hacc : DEBOUNCE_DELAY ≤ now - s.last_switch_time 2) :
    (switch_handler s 2 now).1.current_mode = 2 ∧
    (switch_handler s 2 now).1.led_states 2 = !(s.led_states 2) ∧
    (switch_handler s 2 now).1.gpio_lines 2 = !(s.led_states 2) ∧
    (∀ i : Fin NUM_LEDS, i.val ≠ 2 →
      (switch_handler s 2 now).1.led_states i = s.led_states i ∧
      (switch_handler s 2 now).1.gpio_lines i = s.gpio_lines i) ∧
    (switch_handler s 2 now).1.timer_pending = s.timer_pending := by
  rw [switch_handler_press2 s now (by omega)]
  simp only
  by_cases hl : s.led_states 2 = true
  · rw [if_pos hl, hl]
    refine ⟨by simp [set_led_current_mode], ?_, ?_, ?_, by simp [set_led_timer_pending]⟩
    · rw [set_led_led_states_self _ 2 false 2 (by decide)]; rfl
    · rw [set_led_gpio_lines_self _ 2 false 2 (by decide)]; rfl
    · intro i hi
      constructor
      · rw [set_led_led_states_ne _ 2 false i (by omega)]
      · rw [set_led_gpio_lines_ne _ 2 false i (by omega)]
  · have hl' : s.led_states 2 = false := by revert hl; cases s.led_states 2 <;> simp
    rw [if_neg hl, hl']
    refine ⟨by simp [set_led_current_mode], ?_, ?_, ?_, by simp [set_led_timer_pending]⟩
    · rw [set_led_led_states_self _ 2 true 2 (by decide)]; rfl
    · rw [set_led_gpio_lines_self _ 2 true 2 (by decide)]; rfl
    · intro i hi
      constructor
      · rw [set_led_led_states_ne _ 2 true i (by omega)]
      · rw [set_led_gpio_lines_ne _ 2 true i (by omega)]

/-- Witness for `switch2_sets_manual_and_toggles` at the initial state
(mirror says output 2 is off, so it is toggled on). -/
theorem switch2_sets_manual_and_toggles_witness :
    DEBOUNCE_DELAY ≤ 300 - init_state.last_switch_time 2 ∧
    ((switch_handler init_state 2 300).1.current_mode = 2 ∧
     (switch_handler init_state 2 300).1.led_states 2 = !(init_state.led_states 2) ∧
     (switch_handler init_state 2 300).1.gpio_lines 2 = !(init_state.led_states 2) ∧
     (∀ i : Fin NUM_LEDS, i.val ≠ 2 →
       (switch_handler init_state 2 300).1.led_states i = init_state.led_states i ∧
       (switch_handler init_state 2 300).1.gpio_lines i = init_state.gpio_lines i) ∧
     (switch_handler init_state 2 300).1.timer_pending = init_state.timer_pending) :=
  ⟨by decide, switch2_sets_manual_and_toggles init_state 300 (by decide)⟩

/-! ### Claim C8 -/

/-- Claim C8: `set_led` with an index outside [0, NUM_LEDS) is a complete
no-op — it returns the state unchanged (no physical line written, no
`led_states` entry changed) and can signal no error, since the model is a
total function into `State`. -/
theorem set_led_out_of_range (s : State) (led_idx : Int) (value : Bool)
    (h : led_idx < 0 ∨ (NUM_LEDS : Int) ≤ led_idx) :
    set_led s led_idx value = s := by
  unfold set_led
  rw [if_neg (by omega : ¬ (0 ≤ led_idx ∧ led_idx < (NUM_LEDS : Int)))]

/-- Witness for `set_led_out_of_range` at the too-large index 7 and the
negative index -3. -/
theorem set_led_out_of_range_witness :
    ((NUM_LEDS : Int) ≤ 7 ∧ set_led init_state 7 true = init_state) ∧
    ((-3 : Int) < 0 ∧ set_led init_state (-3) true = init_state) :=
  ⟨⟨by decide, set_led_out_of_range init_state 7 true (Or.inr (by decide))⟩,
   ⟨by decide, set_led_out_of_range init_state (-3) true (Or.inl (by decide))⟩⟩

/-! ### Claim C10 -/

/-- Claim C10: every call to `reset_leds` drives all outputs off, clears
the whole `led_states` mirror, and also sets `current_mode` to Idle(-1);
consequently any timer tick that invokes it — the AllBlink off-phase tick
and every Sweep tick — leaves `current_mode = -1` (and therefore does not
re-arm the timer). -/
theorem reset_leds_sets_idle (s : State) :
    ((reset_leds s).current_mode = -1 ∧
      (∀ i, (reset_leds s).led_states i = false) ∧
      (∀ i, (reset_leds s).gpio_lines i = false)) ∧
    (s.current_mode = 0 → s.led_states 0 = true →
      (led_timer_callback s).current_mode = -1 ∧
      (led_timer_callback s).timer_pending = false) ∧
    (s.current_mode = 1 →
      (led_timer_callback s).current_mode = -1 ∧
      (led_timer_callback s).timer_pending = false) := by
  refine ⟨⟨rfl, fun i => reset_leds_led_states s i, fun i => reset_leds_gpio_lines s i⟩, ?_, ?_⟩
  · intro h0 hl
    rw [led_timer_callback_mode0_off s h0 hl]
    exact ⟨rfl, rfl⟩
  · intro h1
    obtain ⟨hm, hp, _⟩ := led_timer_callback_mode1_spec s h1
    exact ⟨hm, hp⟩

/-- Witness for `reset_leds_sets_idle`: the AllBlink off-phase tick (state
after one accepted switch-0 trigger and one tick) and a Sweep tick (state
after one accepted switch-1 trigger) both drive `current_mode` to -1. -/
theorem reset_leds_sets_idle_witness :
    ((run [Event.press 0 200, Event.tick]).current_mode = 0 ∧
     (run [Event.press 0 200, Event.tick]).led_states 0 = true ∧
     (led_timer_callback (run [Event.press 0 200, Event.tick])).current_mode = -1) ∧
    ((run [Event.press 1 200]).current_mode = 1 ∧
     (led_timer_callback (run [Event.press 1 200])).current_mode = -1) := by
  refine ⟨⟨by decide, by decide, ?_⟩, by decide, ?_⟩
  · exact ((reset_leds_sets_idle (run [Event.press 0 200, Event.tick])).2.1
      (by decide) (by decide)).1
  · exact ((reset_leds_sets_idle (run [Event.press 1 200])).2.2 (by decide)).1

end LedModule
